import Mathlib

/-!
Verification development for the SGStocks dashboard (src/app.py).

The pipeline in `app.py` is embedded shallowly:

* A price series (`df`) is modelled as the list of its closing prices
  (rationals), ordered oldest-to-newest; pandas `df.tail(14)` is
  `l.drop (l.length - 14)`.
* The inline change computation (app.py lines 191-202) becomes
  `compute_change`.
* The flag decision `drop_percentage < -significant_drop_pct`
  (app.py line 205) becomes `classify`.
* `fetch_stock_data` (app.py lines 66-81) is parameterised by the external
  downloader, modelled as `String → Except String (List ℚ)`: `.error`
  stands for a raised exception, `.ok` for a returned frame.
* `get_llm_insight` (app.py lines 83-102) is parameterised by the external
  model call `String → Except String String`.
* The main loop (app.py lines 185-220) becomes `runPipeline`, producing
  the pair `(highlighted_stocks, other_stocks)`.
-/

/-- The static STI ticker registry (app.py lines 31-62), in insertion order,
which is the iteration order of a Python dict. -/
def STI_COMPANIES : List (String × String) :=
  [("D05.SI", "DBS Group Holdings"),
   ("O39.SI", "Oversea-Chinese Banking Corp"),
   ("U11.SI", "United Overseas Bank"),
   ("C31.SI", "CapitaLand Integrated Commercial Trust"),
   ("J36.SI", "Jardine Matheson Holdings"),
   ("C6L.SI", "Singapore Airlines"),
   ("Z74.SI", "Singtel"),
   ("G13.SI", "Genting Singapore"),
   ("S63.SI", "Singapore Technologies Engineering"),
   ("BN4.SI", "Keppel Corporation"),
   ("C09.SI", "City Developments"),
   ("Y92.SI", "Thai Beverage"),
   ("S58.SI", "SATS"),
   ("U96.SI", "Sembcorp Industries"),
   ("H78.SI", "Hongkong Land Holdings"),
   ("V03.SI", "Venture Corporation"),
   ("F34.SI", "Wilmar International"),
   ("A17U.SI", "CapitaLand Ascendas REIT"),
   ("J69U.SI", "Frasers Centrepoint Trust"),
   ("M44U.SI", "Mapletree Logistics Trust"),
   ("N2IU.SI", "Mapletree Pan Asia Commercial Trust"),
   ("ME8U.SI", "Mapletree Industrial Trust"),
   ("BS6.SI", "Yangzijiang Shipbuilding"),
   ("C38U.SI", "CapitaLand Ascott Trust"),
   ("5E2.SI", "Seatrium Limited"),
   ("S68.SI", "Singapore Exchange"),
   ("U14.SI", "UOL Group"),
   ("Q01.SI", "ComfortDelGro Corporation"),
   ("N52.SI", "NetLink NBN Trust"),
   ("T39.SI", "Thai Beverage Public Co Ltd")]

/-- Slider lower bound for the drop threshold (app.py line 176). -/
def slider_min : ℚ := 0

/-- Slider upper bound for the drop threshold (app.py line 176). -/
def slider_max : ℚ := 15

/-- Slider default for the drop threshold (app.py line 176). -/
def slider_default : ℚ := 5

/-- `fetch_stock_data` (app.py lines 66-81): iterate the ticker list; for
each ticker try the download; on exception warn and continue; keep the
frame only when it is non-empty.  `download` models `yf.download`. -/
def fetch_stock_data (download : String → Except String (List ℚ))
    (ticker_list : List String) : List (String × List ℚ) :=
  match ticker_list with
  | [] => []
  | ticker :: rest =>
    match download ticker with
    | .ok df =>
      if df.isEmpty then fetch_stock_data download rest
      else (ticker, df) :: fetch_stock_data download rest
    | .error _ => fetch_stock_data download rest

/-- The prompt template of `get_llm_insight` (app.py lines 88-95), with the
drop magnitude passed as an absolute value. -/
def llm_prompt (company_name ticker : String) (drop_percentage : ℚ) : String :=
  "You are a professional financial analyst. Provide a very brief, high-level insight (2-3 sentences max) for the stock of "
    ++ company_name ++ " (" ++ ticker ++ "). It has dropped by "
    ++ toString (abs drop_percentage)
    ++ "% over the past two weeks. Focus on potential reasons for the drop and its status as a potential investment highlighting that it is a blue-chip company. Do not use complex financial jargon. Do not mention specific prices or dates."

/-- `get_llm_insight` (app.py lines 83-102): send the prompt to the model;
on any exception return the placeholder string instead of raising.
`generate_content` models `model.generate_content(...).text`. -/
def get_llm_insight (generate_content : String → Except String String)
    (company_name ticker : String) (drop_percentage : ℚ) : String :=
  match generate_content (llm_prompt company_name ticker drop_percentage) with
  | .ok insight => insight
  | .error e => "Could not generate LLM insight: " ++ e

/-- The change computation inlined at app.py lines 191-202: take the
trailing `lookback_sessions` rows (`df.tail(14)`); skip when fewer than 2
remain; otherwise compare the last close against the first close of the
window, with a zero fallback when the baseline is not positive. -/
def compute_change (df : List ℚ) (lookback_sessions : ℕ) : Option (ℚ × ℚ) :=
  let last_two_weeks_data := df.drop (df.length - lookback_sessions)
  if last_two_weeks_data.length < 2 then none
  else
    let current_price := last_two_weeks_data.getLastD 0
    let price_two_weeks_ago := last_two_weeks_data.headD 0
    let drop_percentage :=
      if price_two_weeks_ago > 0 then
        (current_price - price_two_weeks_ago) / price_two_weeks_ago * 100
      else 0
    some (current_price, drop_percentage)

/-- The significant-drop test of app.py line 205:
`drop_percentage < -significant_drop_pct`. -/
def classify (change_percent threshold_percent : ℚ) : Bool :=
  change_percent < -threshold_percent

/-- A record of `highlighted_stocks` (app.py lines 207-213). -/
structure FlaggedStock where
  ticker : String
  name : String
  current_price : ℚ
  drop_percentage : ℚ
  insight : String
  deriving Repr, DecidableEq

/-- A record of `other_stocks` (app.py lines 215-220). -/
structure OtherStock where
  ticker : String
  name : String
  current_price : ℚ
  drop_percentage : ℚ
  deriving Repr, DecidableEq

/-- The main pipeline loop (app.py lines 185-220): iterate the registry in
order; skip tickers missing from `all_stocks_data` and empty frames; compute
the change over the trailing 14-row window; route to `highlighted_stocks`
(with an insight) when flagged, else to `other_stocks`. -/
def runPipeline (generate_content : String → Except String String)
    (companies : List (String × String))
    (all_stocks_data : String → Option (List ℚ))
    (significant_drop_pct : ℚ) : List FlaggedStock × List OtherStock :=
  match companies with
  | [] => ([], [])
  | (ticker, name) :: rest =>
    let acc := runPipeline generate_content rest all_stocks_data significant_drop_pct
    match all_stocks_data ticker with
    | none => acc
    | some df =>
      if df.isEmpty then acc
      else
        match compute_change df 14 with
        | none => acc
        | some (current_price, drop_percentage) =>
          if classify drop_percentage significant_drop_pct then
            ({ ticker := ticker, name := name, current_price := current_price,
               drop_percentage := drop_percentage,
               insight := get_llm_insight generate_content name ticker drop_percentage } :: acc.1,
             acc.2)
          else
            (acc.1,
             { ticker := ticker, name := name, current_price := current_price,
               drop_percentage := drop_percentage } :: acc.2)

/-- The change data the loop derives for one ticker: `none` when the ticker
is absent from the fetched mapping, its frame is empty, or the trailing
window is too short; otherwise the `(current_price, drop_percentage)` pair. -/
def changeOf (all_stocks_data : String → Option (List ℚ)) (ticker : String) :
    Option (ℚ × ℚ) :=
  match all_stocks_data ticker with
  | none => none
  | some df => if df.isEmpty then none else compute_change df 14

/-- Whether the loop routes `ticker` to `highlighted_stocks`. -/
def routesFlagged (all_stocks_data : String → Option (List ℚ))
    (significant_drop_pct : ℚ) (ticker : String) : Bool :=
  match changeOf all_stocks_data ticker with
  | none => false
  | some (_, d) => classify d significant_drop_pct

/-- Whether the loop routes `ticker` to `other_stocks`. -/
def routesOther (all_stocks_data : String → Option (List ℚ))
    (significant_drop_pct : ℚ) (ticker : String) : Bool :=
  match changeOf all_stocks_data ticker with
  | none => false
  | some (_, d) => !classify d significant_drop_pct

/-- The `highlighted_stocks` record the loop builds for a flagged company. -/
def mkFlagged (generate_content : String → Except String String)
    (all_stocks_data : String → Option (List ℚ))
    (p : String × String) : FlaggedStock :=
  match changeOf all_stocks_data p.1 with
  | some (c, d) =>
    { ticker := p.1, name := p.2, current_price := c, drop_percentage := d,
      insight := get_llm_insight generate_content p.2 p.1 d }
  | none =>
    { ticker := p.1, name := p.2, current_price := 0, drop_percentage := 0,
      insight := "" }

/-- The `other_stocks` record the loop builds for an unflagged company. -/
def mkOther (all_stocks_data : String → Option (List ℚ))
    (p : String × String) : OtherStock :=
  match changeOf all_stocks_data p.1 with
  | some (c, d) =>
    { ticker := p.1, name := p.2, current_price := c, drop_percentage := d }
  | none =>
    { ticker := p.1, name := p.2, current_price := 0, drop_percentage := 0 }

/-- A model call that always succeeds, for concrete runs. -/
def gc_ok : String → Except String String := fun _ => Except.ok "stub insight"

/-- A model call that always fails, for concrete runs. -/
def gc_fail : String → Except String String := fun _ => Except.error "quota exceeded"

/-- Concrete fetched data: one ticker, a two-point series with a 10% drop. -/
def data_drop : String → Option (List ℚ) :=
  fun t => if t = "D05.SI" then some [100, 90] else none

/-- Concrete fetched data: one ticker whose baseline close is zero. -/
def data_zero : String → Option (List ℚ) :=
  fun t => if t = "X" then some [0, 50] else none

/-- Concrete fetched data: one ticker with a single-point series. -/
def data_short : String → Option (List ℚ) :=
  fun t => if t = "S" then some [7] else none

/-- A one-company registry for concrete runs. -/
def registry1 : List (String × String) := [("D05.SI", "DBS Group Holdings")]

/-- A one-company registry holding the zero-baseline ticker. -/
def registryX : List (String × String) := [("X", "X Holdings")]

/-- A concrete downloader: raises for A, returns an empty frame for B,
a one-row frame otherwise. -/
def download_w : String → Except String (List ℚ) :=
  fun t =>
    if t = "A" then Except.error "boom"
    else if t = "B" then Except.ok [] else Except.ok [1]

lemma mkFlagged_ticker (gc : String → Except String String)
    (data : String → Option (List ℚ)) (p : String × String) :
    (mkFlagged gc data p).ticker = p.1 := by
  unfold mkFlagged; split <;> rfl

lemma mkOther_ticker (data : String → Option (List ℚ)) (p : String × String) :
    (mkOther data p).ticker = p.1 := by
  unfold mkOther; split <;> rfl

/-- The loop output, characterised: each list is the registry filtered by
its routing predicate, mapped to the record builder. -/
lemma runPipeline_eq (gc : String → Except String String)
    (companies : List (String × String))
    (data : String → Option (List ℚ)) (th : ℚ) :
    runPipeline gc companies data th =
      ((companies.filter fun p => routesFlagged data th p.1).map (mkFlagged gc data),
       (companies.filter fun p => routesOther data th p.1).map (mkOther data)) := by
  induction companies with
  | nil => rfl
  | cons p rest ih =>
    obtain ⟨ticker, name⟩ := p
    simp only [runPipeline, ih]
    rcases hdt : data ticker with _ | df
    · simp [List.filter_cons, routesFlagged, routesOther, changeOf, hdt]
    · by_cases hemp : df = []
      · simp [List.filter_cons, routesFlagged, routesOther, changeOf, hdt, hemp]
      · rcases hcc : compute_change df 14 with _ | ⟨c, d⟩
        · simp [List.filter_cons, routesFlagged, routesOther, changeOf, hdt,
            hemp, hcc]
        · cases hcl : classify d th with
          | true =>
            simp [List.filter_cons, routesFlagged, routesOther, changeOf,
              mkFlagged, hdt, hemp, hcc, hcl]
          | false =>
            simp [List.filter_cons, routesFlagged, routesOther, changeOf,
              mkOther, hdt, hemp, hcc, hcl]

lemma flagged_tickers_eq (gc : String → Except String String)
    (companies : List (String × String))
    (data : String → Option (List ℚ)) (th : ℚ) :
    (runPipeline gc companies data th).1.map FlaggedStock.ticker =
      (companies.filter fun p => routesFlagged data th p.1).map Prod.fst := by
  rw [runPipeline_eq]
  rw [List.map_map]
  exact List.map_congr_left fun p _ => mkFlagged_ticker gc data p

lemma other_tickers_eq (gc : String → Except String String)
    (companies : List (String × String))
    (data : String → Option (List ℚ)) (th : ℚ) :
    (runPipeline gc companies data th).2.map OtherStock.ticker =
      (companies.filter fun p => routesOther data th p.1).map Prod.fst := by
  rw [runPipeline_eq]
  rw [List.map_map]
  exact List.map_congr_left fun p _ => mkOther_ticker data p

lemma mem_flagged_tickers {gc : String → Except String String}
    {companies : List (String × String)}
    {data : String → Option (List ℚ)} {th : ℚ} {t : String} :
    t ∈ (runPipeline gc companies data th).1.map FlaggedStock.ticker ↔
      (∃ n, (t, n) ∈ companies) ∧ routesFlagged data th t = true := by
  rw [flagged_tickers_eq]
  simp only [List.mem_map, List.mem_filter]
  constructor
  · rintro ⟨⟨t', n⟩, ⟨hmem, hr⟩, rfl⟩
    exact ⟨⟨n, hmem⟩, hr⟩
  · rintro ⟨⟨n, hmem⟩, hr⟩
    exact ⟨(t, n), ⟨hmem, hr⟩, rfl⟩

lemma mem_other_tickers {gc : String → Except String String}
    {companies : List (String × String)}
    {data : String → Option (List ℚ)} {th : ℚ} {t : String} :
    t ∈ (runPipeline gc companies data th).2.map OtherStock.ticker ↔
      (∃ n, (t, n) ∈ companies) ∧ routesOther data th t = true := by
  rw [other_tickers_eq]
  simp only [List.mem_map, List.mem_filter]
  constructor
  · rintro ⟨⟨t', n⟩, ⟨hmem, hr⟩, rfl⟩
    exact ⟨⟨n, hmem⟩, hr⟩
  · rintro ⟨⟨n, hmem⟩, hr⟩
    exact ⟨(t, n), ⟨hmem, hr⟩, rfl⟩

/-- Shared: change over a window of at least 2 rows with non-positive
baseline is the zero fallback (app.py line 202). -/
lemma compute_change_of_nonpos (series : List ℚ)
    (h2 : 2 ≤ (series.drop (series.length - 14)).length)
    (hle : (series.drop (series.length - 14)).headD 0 ≤ 0) :
    compute_change series 14 =
      some ((series.drop (series.length - 14)).getLastD 0, 0) := by
  have hlt : ¬ (series.drop (series.length - 14)).length < 2 := by omega
  have hnp : ¬ (series.drop (series.length - 14)).headD 0 > 0 := not_lt.mpr hle
  simp only [compute_change]
  rw [if_neg hlt, if_neg hnp]

/-- Shared: a ticker whose `changeOf` is `none` is routed to neither list. -/
lemma routes_false_of_changeOf_none (th : ℚ) {data : String → Option (List ℚ)}
    {t : String} (h : changeOf data t = none) :
    routesFlagged data th t = false ∧ routesOther data th t = false := by
  simp [routesFlagged, routesOther, h]

/-- Shared: with a non-negative threshold a zero change is not flagged. -/
lemma classify_zero_of_nonneg {th : ℚ} (hth : 0 ≤ th) :
    classify 0 th = false := by
  simp only [classify, decide_eq_false_iff_not, not_lt]
  linarith

/-- Claim C1: for a series whose trailing 14-entry window has at least 2
points and a strictly positive first (oldest) close, the computed change
percent is the point-to-point comparison
`(last.close - first.close) / first.close * 100`. -/
theorem change_percent_point_to_point (series : List ℚ)
    (h2 : 2 ≤ (series.drop (series.length - 14)).length)
    (hpos : 0 < (series.drop (series.length - 14)).headD 0) :
    compute_change series 14 =
      some ((series.drop (series.length - 14)).getLastD 0,
        ((series.drop (series.length - 14)).getLastD 0 -
            (series.drop (series.length - 14)).headD 0) /
          (series.drop (series.length - 14)).headD 0 * 100) := by
  have hlt : ¬ (series.drop (series.length - 14)).length < 2 := by omega
  simp only [compute_change]
  rw [if_neg hlt, if_pos hpos]

/-- Witness for C1 at the series `[100, 90]`. -/
theorem change_percent_point_to_point_witness :
    compute_change [100, 90] 14 = some (90, -10) := by
  have h := change_percent_point_to_point [100, 90] (by norm_num) (by norm_num)
  rw [h]
  norm_num

/-- Claim C2: a change percent is classified a significant drop iff it is
strictly below the negated threshold; at exactly the negated threshold it
is not flagged. -/
theorem classify_iff_below_neg_threshold (change_percent threshold_percent : ℚ) :
    (classify change_percent threshold_percent = true ↔
      change_percent < -threshold_percent) ∧
    classify (-threshold_percent) threshold_percent = false := by
  constructor
  · simp [classify]
  · simp [classify]

/-- Claim C3: for a series whose trailing window has at least 2 points and
a non-positive baseline, the change percent is defined to be 0 and the
computation is total (no division by zero). -/
theorem baseline_nonpos_change_zero (series : List ℚ)
    (h2 : 2 ≤ (series.drop (series.length - 14)).length)
    (hle : (series.drop (series.length - 14)).headD 0 ≤ 0) :
    compute_change series 14 =
      some ((series.drop (series.length - 14)).getLastD 0, 0) :=
  compute_change_of_nonpos series h2 hle

/-- Witness for C3 at the series `[0, 50]`. -/
theorem baseline_nonpos_change_zero_witness :
    compute_change [0, 50] 14 = some (50, 0) := by
  have h := baseline_nonpos_change_zero [0, 50] (by norm_num) (by norm_num)
  rw [h]
  norm_num

/-- Counterexample for C4: with a two-point series of baseline 0 the
computation is not skipped — a change result is produced and the
instrument lands in the unflagged output list. -/
theorem baseline_nonpos_not_skipped_cex :
    compute_change [0, 50] 14 ≠ none ∧
    "X" ∈ (runPipeline gc_ok registryX data_zero 5).2.map OtherStock.ticker := by
  constructor
  · rw [compute_change_of_nonpos [0, 50] (by norm_num) (by norm_num)]
    simp
  · norm_num [runPipeline, registryX, data_zero, compute_change, classify,
      gc_ok]

/-- Claim C4 (amended): when the earliest close of the trailing window is
non-positive and the window has at least 2 points, the computation is NOT
skipped: a change result is produced with change percent 0 and the
instrument is routed to one of the two output lists. -/
theorem baseline_nonpos_still_routed
    (gc : String → Except String String)
    (companies : List (String × String))
    (data : String → Option (List ℚ)) (th : ℚ)
    (t n : String) (df : List ℚ)
    (hmem : (t, n) ∈ companies)
    (hdt : data t = some df) (hne : df ≠ [])
    (h2 : 2 ≤ (df.drop (df.length - 14)).length)
    (hle : (df.drop (df.length - 14)).headD 0 ≤ 0) :
    compute_change df 14 ≠ none ∧
    changeOf data t = some ((df.drop (df.length - 14)).getLastD 0, 0) ∧
    (t ∈ (runPipeline gc companies data th).1.map FlaggedStock.ticker ∨
     t ∈ (runPipeline gc companies data th).2.map OtherStock.ticker) := by
  have hcc := compute_change_of_nonpos df h2 hle
  have hco : changeOf data t = some ((df.drop (df.length - 14)).getLastD 0, 0) := by
    simp [changeOf, hdt, hne, hcc]
  refine ⟨by simp [hcc], hco, ?_⟩
  rw [mem_flagged_tickers, mem_other_tickers]
  cases hcl : classify 0 th with
  | true =>
    exact Or.inl ⟨⟨n, hmem⟩, by simp [routesFlagged, hco, hcl]⟩
  | false =>
    exact Or.inr ⟨⟨n, hmem⟩, by simp [routesOther, hco, hcl]⟩

/-- Witness for the amended C4 at the concrete zero-baseline run. -/
theorem baseline_nonpos_still_routed_witness :
    compute_change [0, 50] 14 ≠ none ∧
    changeOf data_zero "X" =
      some ((([(0 : ℚ), 50]).drop (([(0 : ℚ), 50]).length - 14)).getLastD 0, 0) ∧
    ("X" ∈ (runPipeline gc_ok registryX data_zero 5).1.map FlaggedStock.ticker ∨
     "X" ∈ (runPipeline gc_ok registryX data_zero 5).2.map OtherStock.ticker) :=
  baseline_nonpos_still_routed gc_ok registryX data_zero 5 "X" "X Holdings"
    [0, 50] (by simp [registryX]) (by simp [data_zero]) (by simp)
    (by norm_num) (by norm_num)

/-- Claim C5: a ticker whose fetched series has fewer than 2 points in the
trailing window produces no change result and appears in neither output
list. -/
theorem short_window_no_result
    (gc : String → Except String String)
    (companies : List (String × String))
    (data : String → Option (List ℚ)) (th : ℚ)
    (t : String) (df : List ℚ)
    (hdt : data t = some df)
    (hshort : (df.drop (df.length - 14)).length < 2) :
    compute_change df 14 = none ∧
    t ∉ (runPipeline gc companies data th).1.map FlaggedStock.ticker ∧
    t ∉ (runPipeline gc companies data th).2.map OtherStock.ticker := by
  have hcc : compute_change df 14 = none := by
    simp only [compute_change]
    rw [if_pos hshort]
  have hco : changeOf data t = none := by
    simp [changeOf, hdt, hcc]
  obtain ⟨hf, ho⟩ := routes_false_of_changeOf_none th hco
  refine ⟨hcc, ?_, ?_⟩
  · rw [mem_flagged_tickers]
    rintro ⟨-, hr⟩
    rw [hf] at hr
    exact Bool.false_ne_true hr
  · rw [mem_other_tickers]
    rintro ⟨-, hr⟩
    rw [ho] at hr
    exact Bool.false_ne_true hr

/-- Witness for C5 at the one-point series run. -/
theorem short_window_no_result_witness :
    compute_change [7] 14 = none ∧
    "S" ∉ (runPipeline gc_ok [("S", "Short Co")] data_short 5).1.map
        FlaggedStock.ticker ∧
    "S" ∉ (runPipeline gc_ok [("S", "Short Co")] data_short 5).2.map
        OtherStock.ticker :=
  short_window_no_result gc_ok [("S", "Short Co")] data_short 5 "S" [7]
    (by simp [data_short]) (by norm_num)

/-- Claim C6: per run every registry entry lands in at most one of the two
output lists; it lands in one of them exactly when a change result exists
for its ticker, and a ticker with no fetched data lands in neither. -/
theorem pipeline_partition
    (gc : String → Except String String)
    (companies : List (String × String))
    (data : String → Option (List ℚ)) (th : ℚ) (t n : String)
    (hmem : (t, n) ∈ companies) :
    ¬(t ∈ (runPipeline gc companies data th).1.map FlaggedStock.ticker ∧
      t ∈ (runPipeline gc companies data th).2.map OtherStock.ticker) ∧
    ((t ∈ (runPipeline gc companies data th).1.map FlaggedStock.ticker ∨
      t ∈ (runPipeline gc companies data th).2.map OtherStock.ticker) ↔
      (changeOf data t).isSome = true) ∧
    (data t = none →
      t ∉ (runPipeline gc companies data th).1.map FlaggedStock.ticker ∧
      t ∉ (runPipeline gc companies data th).2.map OtherStock.ticker) := by
  have hex : ∃ n', (t, n') ∈ companies := ⟨n, hmem⟩
  refine ⟨?_, ?_, ?_⟩
  · rintro ⟨hf, ho⟩
    rw [mem_flagged_tickers] at hf
    rw [mem_other_tickers] at ho
    obtain ⟨-, hf⟩ := hf
    obtain ⟨-, ho⟩ := ho
    rcases hco : changeOf data t with _ | ⟨c, d⟩
    · simp [routesFlagged, hco] at hf
    · simp only [routesFlagged, hco] at hf
      simp only [routesOther, hco] at ho
      rw [hf] at ho
      simp at ho
  · rw [mem_flagged_tickers, mem_other_tickers]
    rcases hco : changeOf data t with _ | ⟨c, d⟩
    · simp [routesFlagged, routesOther, hco]
    · simp only [routesFlagged, routesOther, hco, Option.isSome_some]
      simp [hex]
  · intro hnone
    have hco : changeOf data t = none := by simp [changeOf, hnone]
    obtain ⟨hf, ho⟩ := routes_false_of_changeOf_none th hco
    rw [mem_flagged_tickers, mem_other_tickers]
    constructor
    · rintro ⟨-, hr⟩
      rw [hf] at hr
      exact Bool.false_ne_true hr
    · rintro ⟨-, hr⟩
      rw [ho] at hr
      exact Bool.false_ne_true hr

/-- Witness for C6 at the concrete one-company run with a 10% drop. -/
theorem pipeline_partition_witness :
    ¬("D05.SI" ∈ (runPipeline gc_ok registry1 data_drop 5).1.map
          FlaggedStock.ticker ∧
      "D05.SI" ∈ (runPipeline gc_ok registry1 data_drop 5).2.map
          OtherStock.ticker) ∧
    (("D05.SI" ∈ (runPipeline gc_ok registry1 data_drop 5).1.map
          FlaggedStock.ticker ∨
      "D05.SI" ∈ (runPipeline gc_ok registry1 data_drop 5).2.map
          OtherStock.ticker) ↔
      (changeOf data_drop "D05.SI").isSome = true) ∧
    (data_drop "D05.SI" = none →
      "D05.SI" ∉ (runPipeline gc_ok registry1 data_drop 5).1.map
          FlaggedStock.ticker ∧
      "D05.SI" ∉ (runPipeline gc_ok registry1 data_drop 5).2.map
          OtherStock.ticker) :=
  pipeline_partition gc_ok registry1 data_drop 5 "D05.SI"
    "DBS Group Holdings" (by simp [registry1])

/-- Claim C7: a failing model call makes `get_llm_insight` return the
placeholder string instead of raising; the flagged list is still built,
its membership does not depend on the model call, each flagged record is
built from its own registry entry alone, and a flagged ticker still
appears in the list. -/
theorem insight_failure_isolated
    (gc gc' : String → Except String String)
    (companies : List (String × String))
    (data : String → Option (List ℚ)) (th : ℚ)
    (company_name tk : String) (d : ℚ) (e : String)
    (h : gc (llm_prompt company_name tk d) = Except.error e) :
    get_llm_insight gc company_name tk d =
      "Could not generate LLM insight: " ++ e ∧
    (runPipeline gc companies data th).1 =
      (companies.filter fun p => routesFlagged data th p.1).map
        (mkFlagged gc data) ∧
    (runPipeline gc companies data th).1.map FlaggedStock.ticker =
      (runPipeline gc' companies data th).1.map FlaggedStock.ticker ∧
    (∀ nm, (tk, nm) ∈ companies → routesFlagged data th tk = true →
      tk ∈ (runPipeline gc companies data th).1.map FlaggedStock.ticker) := by
  refine ⟨?_, ?_, ?_, ?_⟩
  · simp [get_llm_insight, h]
  · rw [runPipeline_eq]
  · rw [flagged_tickers_eq, flagged_tickers_eq]
  · intro nm hmem hr
    exact mem_flagged_tickers.mpr ⟨⟨nm, hmem⟩, hr⟩

/-- Witness for C7: the always-failing model call on the concrete run. -/
theorem insight_failure_isolated_witness :
    get_llm_insight gc_fail "DBS Group Holdings" "D05.SI" (-10) =
      "Could not generate LLM insight: " ++ "quota exceeded" ∧
    (runPipeline gc_fail registry1 data_drop 5).1 =
      (registry1.filter fun p => routesFlagged data_drop 5 p.1).map
        (mkFlagged gc_fail data_drop) ∧
    (runPipeline gc_fail registry1 data_drop 5).1.map FlaggedStock.ticker =
      (runPipeline gc_ok registry1 data_drop 5).1.map FlaggedStock.ticker ∧
    (∀ nm, ("D05.SI", nm) ∈ registry1 →
      routesFlagged data_drop 5 "D05.SI" = true →
      "D05.SI" ∈ (runPipeline gc_fail registry1 data_drop 5).1.map
        FlaggedStock.ticker) :=
  insight_failure_isolated gc_fail gc_ok registry1 data_drop 5
    "DBS Group Holdings" "D05.SI" (-10) "quota exceeded" rfl

/-- Shared: `fetch_stock_data` is a per-ticker filterMap of the downloader. -/
lemma fetch_eq_filterMap (download : String → Except String (List ℚ))
    (l : List String) :
    fetch_stock_data download l =
      l.filterMap (fun ticker =>
        match download ticker with
        | Except.ok df => if df.isEmpty then none else some (ticker, df)
        | Except.error _ => none) := by
  induction l with
  | nil => rfl
  | cons a rest ih =>
    rw [fetch_stock_data, List.filterMap_cons]
    cases hda : download a with
    | error e => simp [ih]
    | ok df =>
      by_cases hemp : df = []
      · simp [hemp, ih]
      · simp [hemp, ih]

/-- Claim C8: the batch fetch tries each identifier independently — an
exception for one ticker just skips it (the rest of the list is fetched
unchanged) — and the result contains exactly the tickers whose download
succeeded with a non-empty frame. -/
theorem fetch_isolate_and_continue
    (download : String → Except String (List ℚ))
    (ticker_list : List String) (t : String) (rest : List String)
    (e : String) (h : download t = Except.error e) :
    fetch_stock_data download ticker_list =
      ticker_list.filterMap (fun ticker =>
        match download ticker with
        | Except.ok df => if df.isEmpty then none else some (ticker, df)
        | Except.error _ => none) ∧
    fetch_stock_data download (t :: rest) = fetch_stock_data download rest ∧
    (∀ t', (∃ df, (t', df) ∈ fetch_stock_data download ticker_list) ↔
      (t' ∈ ticker_list ∧
        ∃ df, download t' = Except.ok df ∧ df.isEmpty = false)) := by
  refine ⟨fetch_eq_filterMap download ticker_list, ?_, ?_⟩
  · rw [fetch_stock_data, h]
  · intro t'
    rw [fetch_eq_filterMap]
    simp only [List.mem_filterMap]
    constructor
    · rintro ⟨df, a, ha, hf⟩
      split at hf
      · rename_i df' heq
        split at hf
        · exact Option.noConfusion hf
        · rename_i hemp
          simp only [Option.some_inj, Prod.mk.injEq] at hf
          obtain ⟨rfl, rfl⟩ := hf
          exact ⟨ha, df', heq, by simpa using hemp⟩
      · exact Option.noConfusion hf
    · rintro ⟨hmem, df, hok, hemp⟩
      refine ⟨df, t', hmem, ?_⟩
      rw [hok]
      simp [hemp]

/-- Witness for C8 at the concrete downloader (A raises, B is empty). -/
theorem fetch_isolate_and_continue_witness :
    fetch_stock_data download_w ["A", "B", "C"] =
      (["A", "B", "C"]).filterMap (fun ticker =>
        match download_w ticker with
        | Except.ok df => if df.isEmpty then none else some (ticker, df)
        | Except.error _ => none) ∧
    fetch_stock_data download_w ("A" :: ["B", "C"]) =
      fetch_stock_data download_w ["B", "C"] ∧
    (∀ t', (∃ df, (t', df) ∈ fetch_stock_data download_w ["A", "B", "C"]) ↔
      (t' ∈ ["A", "B", "C"] ∧
        ∃ df, download_w t' = Except.ok df ∧ df.isEmpty = false)) :=
  fetch_isolate_and_continue download_w ["A", "B", "C"] "A" ["B", "C"]
    "boom" rfl

/-- Claim C9: within each output list the tickers appear in registry
iteration order: each list is the registry filtered by its routing
predicate, hence a sublist of the registry order (never re-sorted). -/
theorem output_registry_order
    (gc : String → Except String String)
    (companies : List (String × String))
    (data : String → Option (List ℚ)) (th : ℚ) :
    (runPipeline gc companies data th).1.map FlaggedStock.ticker =
      (companies.filter fun p => routesFlagged data th p.1).map Prod.fst ∧
    (runPipeline gc companies data th).2.map OtherStock.ticker =
      (companies.filter fun p => routesOther data th p.1).map Prod.fst ∧
    List.Sublist
      ((runPipeline gc companies data th).1.map FlaggedStock.ticker)
      (companies.map Prod.fst) ∧
    List.Sublist
      ((runPipeline gc companies data th).2.map OtherStock.ticker)
      (companies.map Prod.fst) := by
  refine ⟨flagged_tickers_eq gc companies data th,
    other_tickers_eq gc companies data th, ?_, ?_⟩
  · rw [flagged_tickers_eq]
    exact (List.filter_sublist companies).map Prod.fst
  · rw [other_tickers_eq]
    exact (List.filter_sublist companies).map Prod.fst

/-- Claim C10: with a threshold in the slider range and a non-positive
baseline over a window of at least 2 points, the change percent is forced
to 0, the ticker is never flagged (so no insight request is made for it)
and it always lands in the unflagged list. -/
theorem nonpos_baseline_never_flagged
    (gc : String → Except String String)
    (companies : List (String × String))
    (data : String → Option (List ℚ)) (th : ℚ)
    (t n : String) (df : List ℚ)
    (hth0 : slider_min ≤ th) (_hth1 : th ≤ slider_max)
    (hmem : (t, n) ∈ companies)
    (hdt : data t = some df) (hne : df ≠ [])
    (h2 : 2 ≤ (df.drop (df.length - 14)).length)
    (hle : (df.drop (df.length - 14)).headD 0 ≤ 0) :
    changeOf data t = some ((df.drop (df.length - 14)).getLastD 0, 0) ∧
    t ∉ (runPipeline gc companies data th).1.map FlaggedStock.ticker ∧
    t ∈ (runPipeline gc companies data th).2.map OtherStock.ticker := by
  have hth : (0 : ℚ) ≤ th := by simpa [slider_min] using hth0
  have hcc := compute_change_of_nonpos df h2 hle
  have hco : changeOf data t =
      some ((df.drop (df.length - 14)).getLastD 0, 0) := by
    simp [changeOf, hdt, hne, hcc]
  have hcl : classify 0 th = false := classify_zero_of_nonneg hth
  refine ⟨hco, ?_, ?_⟩
  · rw [mem_flagged_tickers]
    rintro ⟨-, hr⟩
    have hrf : routesFlagged data th t = false := by
      simp [routesFlagged, hco, hcl]
    rw [hrf] at hr
    exact Bool.false_ne_true hr
  · exact mem_other_tickers.mpr
      ⟨⟨n, hmem⟩, by simp [routesOther, hco, hcl]⟩

/-- Witness for C10 at the concrete zero-baseline run with threshold 5. -/
theorem nonpos_baseline_never_flagged_witness :
    changeOf data_zero "X" =
      some ((([(0 : ℚ), 50]).drop (([(0 : ℚ), 50]).length - 14)).getLastD 0,
        0) ∧
    "X" ∉ (runPipeline gc_ok registryX data_zero 5).1.map
        FlaggedStock.ticker ∧
    "X" ∈ (runPipeline gc_ok registryX data_zero 5).2.map
        OtherStock.ticker :=
  nonpos_baseline_never_flagged gc_ok registryX data_zero 5 "X" "X Holdings"
    [0, 50] (by norm_num [slider_min]) (by norm_num [slider_max])
    (by simp [registryX]) (by simp [data_zero]) (by simp)
    (by norm_num) (by norm_num)
